import Mathlib

/-!
Shallow embedding of the task-management system (models and services) and
proofs about the properties its specification states.

Conventions used throughout the embedding:
- Python datetimes are modelled as integer timestamps (seconds); every
  operation that reads the clock receives the current time explicitly as a
  `now` parameter.
- Python exceptions are modelled by the sum type `PyErr`; fallible
  operations return `Except PyErr`.
- Mutation is modelled functionally: an operation that mutates an entity
  returns the updated entity.  In the source, every `raise` inside an
  entity operation happens before any field assignment, so returning the
  untouched input state on `Except.error` is faithful to the code.
-/

deriving instance DecidableEq for Except

namespace TaskMgmt

/-- Error model for the exception classes the source raises: plain
`ValueError`, `PermissionError`, and the custom `ValidationError` declared
in models/user.py. -/
inductive PyErr where
  | valueError (msg : String)
  | permissionError (msg : String)
  | validationError (msg : String)
deriving DecidableEq, Repr

/-- TaskStatus enumeration from models/task.py. -/
inductive TaskStatus where
  | todo
  | inProgress
  | review
  | done
  | cancelled
deriving DecidableEq, Repr

/-- TaskPriority enumeration from models/task.py (ordered values 1..4). -/
inductive TaskPriority where
  | low
  | medium
  | high
  | urgent
deriving DecidableEq, Repr

/-- TaskComment dataclass from models/task.py. -/
structure TaskComment where
  id : String
  authorId : String
  content : String
  createdAt : Int
deriving DecidableEq, Repr

/-- Task entity from models/task.py: the fields held by a Task object. -/
structure Task where
  id : String
  title : String
  description : String
  status : TaskStatus
  priority : TaskPriority
  assigneeId : Option String
  dueDate : Option Int
  createdAt : Int
  updatedAt : Int
  comments : List TaskComment
  tags : List String
deriving DecidableEq, Repr

/-- Task.update_status from models/task.py: raises
ValueError("Cannot change status of completed task") when the task is DONE
and the new status differs; otherwise sets the status and refreshes the
updated timestamp. -/
def Task.updateStatus (t : Task) (newStatus : TaskStatus) (now : Int) :
    Except PyErr Task :=
  if t.status = TaskStatus.done ∧ newStatus ≠ TaskStatus.done then
    Except.error (PyErr.valueError "Cannot change status of completed task")
  else
    Except.ok { t with status := newStatus, updatedAt := now }

/-- Number of seconds in one day, the unit used by Python timedelta.days. -/
def secondsPerDay : Int := 86400

/-- Task.is_urgent from models/task.py.  Python computes
(due_date - now).days, which is the floor of the signed difference in
days (timedelta.days floors toward negative infinity), and tests
days_until_due <= 1 together with priority in [HIGH, URGENT]. -/
def Task.isUrgent (t : Task) (now : Int) : Bool :=
  if t.priority = TaskPriority.urgent then
    true
  else
    match t.dueDate with
    | some due =>
        decide ((due - now).fdiv secondsPerDay ≤ 1) &&
          (decide (t.priority = TaskPriority.high) ||
            decide (t.priority = TaskPriority.urgent))
    | none => false

end TaskMgmt

namespace TaskMgmt

/-- Sample task for C6: HIGH priority, due one and a half days (129600 s)
after time 0. -/
def highDueTask : Task :=
  { id := "task_3", title := "Prepare demo", description := ""
    status := TaskStatus.todo, priority := TaskPriority.high
    assigneeId := none, dueDate := some 129600, createdAt := 0, updatedAt := 0
    comments := [], tags := [] }

/-- Sample task for C6: URGENT priority and no due date. -/
def urgentNoDueTask : Task :=
  { id := "task_4", title := "Hotfix", description := ""
    status := TaskStatus.todo, priority := TaskPriority.urgent
    assigneeId := none, dueDate := none, createdAt := 0, updatedAt := 0
    comments := [], tags := [] }

/-- Sample task used by concrete witnesses: a DONE task. -/
def doneTask : Task :=
  { id := "task_1", title := "Ship release", description := ""
    status := TaskStatus.done, priority := TaskPriority.medium
    assigneeId := none, dueDate := none, createdAt := 0, updatedAt := 0
    comments := [], tags := [] }

/-- Sample task used by concrete witnesses: a TODO task. -/
def todoTask : Task :=
  { id := "task_2", title := "Write docs", description := ""
    status := TaskStatus.todo, priority := TaskPriority.medium
    assigneeId := none, dueDate := none, createdAt := 0, updatedAt := 0
    comments := [], tags := [] }

/-- C1: once a task is DONE, update_status to any different status fails
with the InvalidTransition error and no updated task is produced (so the
stored status remains DONE); update_status to DONE itself succeeds; and on
a task that is not DONE, update_status always succeeds, sets the requested
status and refreshes the updated timestamp. -/
theorem C1_update_status_done_terminal (t : Task) (s : TaskStatus) (now : Int) :
    (t.status = TaskStatus.done → s ≠ TaskStatus.done →
      t.updateStatus s now =
        Except.error (PyErr.valueError "Cannot change status of completed task")) ∧
    (t.status = TaskStatus.done →
      t.updateStatus TaskStatus.done now =
        Except.ok { t with status := TaskStatus.done, updatedAt := now }) ∧
    (t.status ≠ TaskStatus.done →
      ∃ t2, t.updateStatus s now = Except.ok t2 ∧
        t2.status = s ∧ t2.updatedAt = now ∧ t2.id = t.id ∧
        t2.comments = t.comments ∧ t2.assigneeId = t.assigneeId) := by
  refine ⟨fun hd hs => ?_, fun hd => ?_, fun hnd => ?_⟩
  · simp [Task.updateStatus, hd, hs]
  · simp [Task.updateStatus]
  · refine ⟨{ t with status := s, updatedAt := now }, ?_, rfl, rfl, rfl, rfl, rfl⟩
    simp [Task.updateStatus, hnd]

/-- Witness for C1 at concrete inputs: the DONE sample task rejects a move
to TODO, and the TODO sample task moves to IN_PROGRESS. -/
theorem C1_update_status_done_terminal_witness :
    (doneTask.updateStatus TaskStatus.todo 5 =
      Except.error (PyErr.valueError "Cannot change status of completed task")) ∧
    (∃ t2, todoTask.updateStatus TaskStatus.inProgress 5 = Except.ok t2 ∧
      t2.status = TaskStatus.inProgress ∧ t2.updatedAt = 5 ∧
      t2.id = todoTask.id ∧ t2.comments = todoTask.comments ∧
      t2.assigneeId = todoTask.assigneeId) := by
  refine ⟨?_, ?_⟩
  · exact (C1_update_status_done_terminal doneTask TaskStatus.todo 5).1
      (by decide) (by decide)
  · exact (C1_update_status_done_terminal todoTask TaskStatus.inProgress 5).2.2
      (by decide)

end TaskMgmt

namespace TaskMgmt

/-- C6 counterexample: a HIGH-priority task due 129600 seconds (one and a
half days) after the evaluation time is reported urgent by is_urgent, yet
its due date is not within 1 day (86400 s) of the evaluation time, so the
claim that is_urgent is true only when the due date is within 1 day is
false at this input. -/
theorem C6_is_urgent_counterexample :
    highDueTask.isUrgent 0 = true ∧
    highDueTask.priority ≠ TaskPriority.urgent ∧
    highDueTask.dueDate = some 129600 ∧
    ¬ ((129600 : Int) - 0 ≤ secondsPerDay) := by
  refine ⟨by decide, by decide, rfl, by decide⟩

/-- C6 amended: is_urgent is true iff the priority is URGENT, or a due
date exists, the priority is HIGH or URGENT, and the due date is less than
2 whole days after the evaluation time (Python timedelta.days floors, so
this includes every past due date, not only due dates within 1 day). -/
theorem C6_is_urgent_amended (t : Task) (now : Int) :
    t.isUrgent now = true ↔
      (t.priority = TaskPriority.urgent ∨
        ∃ d, t.dueDate = some d ∧
          (t.priority = TaskPriority.high ∨ t.priority = TaskPriority.urgent) ∧
          d - now < 2 * secondsPerDay) := by
  unfold Task.isUrgent
  by_cases hu : t.priority = TaskPriority.urgent
  · simp [hu]
  · rw [if_neg hu]
    cases hd : t.dueDate with
    | none => simp [hu]
    | some d =>
      have hdiv : (d - now).fdiv secondsPerDay ≤ 1 ↔ d - now < 2 * secondsPerDay := by
        rw [Int.fdiv_eq_ediv _ (by decide : (0 : Int) ≤ secondsPerDay)]
        simp only [secondsPerDay]
        omega
      simp only [Bool.and_eq_true, Bool.or_eq_true, decide_eq_true_eq, hdiv]
      constructor
      · rintro ⟨hlt, hp⟩
        exact Or.inr ⟨d, rfl, hp, hlt⟩
      · rintro (h | ⟨d2, hd2, hp, hlt⟩)
        · exact absurd h hu
        · cases hd2
          exact ⟨hlt, hp⟩

end TaskMgmt

namespace TaskMgmt

/-- Witness for C6 amended at concrete inputs: an URGENT task with no due
date is urgent, and the HIGH task due in one and a half days is urgent
because its due date is less than 2 days ahead. -/
theorem C6_is_urgent_amended_witness :
    urgentNoDueTask.isUrgent 0 = true ∧ highDueTask.isUrgent 7 = true := by
  refine ⟨?_, ?_⟩
  · exact (C6_is_urgent_amended urgentNoDueTask 0).mpr (Or.inl rfl)
  · exact (C6_is_urgent_amended highDueTask 7).mpr
      (Or.inr ⟨129600, rfl, Or.inl rfl, by decide⟩)

/-- ProjectStatus enumeration from models/project.py. -/
inductive ProjectStatus where
  | planning
  | active
  | onHold
  | completed
  | cancelled
deriving DecidableEq, Repr

/-- ProjectMilestone dataclass from models/project.py. -/
structure ProjectMilestone where
  id : String
  title : String
  description : String
  dueDate : Int
  completed : Bool
  completedAt : Option Int
deriving DecidableEq, Repr

/-- Project entity from models/project.py: the fields held by a Project
object.  Tasks are owned by value, as in the source. -/
structure Project where
  id : String
  name : String
  description : String
  status : ProjectStatus
  ownerId : Option String
  createdAt : Int
  updatedAt : Int
  tasks : List Task
  milestones : List ProjectMilestone
  teamMembers : List String
deriving DecidableEq, Repr

/-- Project.add_task from models/project.py: Python membership uses
Task.__eq__, which compares ids only, so the task is appended exactly when
no task with the same id is already present. -/
def Project.addTask (p : Project) (t : Task) (now : Int) : Project :=
  if p.tasks.any (fun t2 => t2.id = t.id) then p
  else { p with tasks := p.tasks ++ [t], updatedAt := now }

/-- Project.get_tasks_by_status from models/project.py. -/
def Project.getTasksByStatus (p : Project) (s : TaskStatus) : List Task :=
  p.tasks.filter (fun t => t.status = s)

end TaskMgmt

namespace TaskMgmt

/-- Floor of the base-2 logarithm, computed with explicit fuel so that the
kernel can evaluate it; 64 steps cover every operand below 2 to the 64,
far beyond the quantities arising here.  Returns 0 for 0 and 1. -/
def log2fuel : Nat → Nat → Nat
  | 0, _ => 0
  | fuel + 1, n => if n ≤ 1 then 0 else log2fuel fuel (n / 2) + 1

/-- Floor of the base-2 logarithm of n, for n below 2 to the 64. -/
def nlog2 (n : Nat) : Nat := log2fuel 64 n

/-- Round a / b to the nearest integer with ties to even, the rounding
used by IEEE-754 binary64 arithmetic (b positive). -/
def roundDiv (a b : Nat) : Nat :=
  let q := a / b
  let r := a % b
  if 2 * r < b then q
  else if b < 2 * r then q + 1
  else if q % 2 = 0 then q else q + 1

/-- Correctly rounded IEEE-754 binary64 quotient of d / n for positive
naturals, returned as a dyadic pair (m, s) whose value is m divided by
2 to the s, with the significand m carrying 53 bits. -/
def floatDivRound (d n : Nat) : Nat × Nat :=
  let s0 := 52 + nlog2 n - nlog2 d
  let m0 := d * 2 ^ s0 / n
  let s := if m0 < 2 ^ 52 then s0 + 1 else s0
  (roundDiv (d * 2 ^ s) n, s)

/-- Models CPython evaluating int((d / n) * 100) in IEEE-754 binary64
arithmetic for 0 <= d <= n: the true division d / n is rounded to the
nearest double, that double is multiplied by 100 and rounded to the
nearest double again, and the result is truncated to an integer.  This is
the arithmetic Project.get_progress_percentage performs. -/
def pyFloatPercent (d n : Nat) : Nat :=
  if n = 0 ∨ d = 0 then 0
  else
    let p := floatDivRound d n
    let t := p.1 * 100
    let lt := nlog2 t
    if lt ≤ 52 then t / 2 ^ p.2
    else
      let k := lt - 52
      let m := roundDiv t (2 ^ k)
      if k ≤ p.2 then m / 2 ^ (p.2 - k) else m * 2 ^ (k - p.2)

/-- Project.get_progress_percentage from models/project.py: 0 when the
task list is empty, otherwise int((completed_tasks / len(tasks)) * 100)
evaluated in Python float (binary64) arithmetic. -/
def Project.getProgressPercentage (p : Project) : Nat :=
  if p.tasks.isEmpty then 0
  else pyFloatPercent (p.getTasksByStatus TaskStatus.done).length p.tasks.length

end TaskMgmt

namespace TaskMgmt

/-- C10: adding a task whose id is already present leaves the project
unchanged (Task equality is by id), and add_task preserves the invariant
that the task list has no two tasks with the same id. -/
theorem C10_add_task_idempotent (p : Project) (t : Task) (now : Int) :
    ((∃ t2 ∈ p.tasks, t2.id = t.id) → p.addTask t now = p) ∧
    ((p.tasks.map Task.id).Nodup →
      (((p.addTask t now).tasks).map Task.id).Nodup) := by
  constructor
  · rintro ⟨t2, ht2, hid⟩
    unfold Project.addTask
    rw [if_pos]
    exact List.any_eq_true.mpr ⟨t2, ht2, decide_eq_true hid⟩
  · intro hnd
    unfold Project.addTask
    by_cases hmem : p.tasks.any (fun t2 => t2.id = t.id)
    · rw [if_pos hmem]
      exact hnd
    · rw [if_neg hmem]
      simp only [List.map_append, List.map_cons, List.map_nil]
      rw [List.nodup_append]
      refine ⟨hnd, List.nodup_singleton _, ?_⟩
      intro x hx hx2
      simp only [List.mem_singleton] at hx2
      subst hx2
      rcases List.mem_map.mp hx with ⟨t2, ht2, hid⟩
      exact hmem (List.any_eq_true.mpr ⟨t2, ht2, decide_eq_true hid⟩)

/-- Witness for C10 at concrete inputs: adding a task with the id of the
DONE sample task to a project already containing it changes nothing, and
the resulting id list of adding a fresh task stays duplicate-free. -/
theorem C10_add_task_idempotent_witness :
    ({ id := "proj_1", name := "Site", description := ""
       status := ProjectStatus.planning, ownerId := none, createdAt := 0
       updatedAt := 0, tasks := [doneTask], milestones := []
       teamMembers := [] } : Project).addTask doneTask 9 =
      { id := "proj_1", name := "Site", description := ""
        status := ProjectStatus.planning, ownerId := none, createdAt := 0
        updatedAt := 0, tasks := [doneTask], milestones := []
        teamMembers := [] } ∧
    ((({ id := "proj_1", name := "Site", description := ""
         status := ProjectStatus.planning, ownerId := none, createdAt := 0
         updatedAt := 0, tasks := [doneTask], milestones := []
         teamMembers := [] } : Project).addTask todoTask 9).tasks.map
        Task.id).Nodup := by
  constructor
  · exact (C10_add_task_idempotent _ doneTask 9).1 ⟨doneTask, by decide, rfl⟩
  · exact (C10_add_task_idempotent _ todoTask 9).2 (by decide)

/-- Concrete project for C2: 100 tasks of which 29 are DONE. -/
def project100 : Project :=
  { id := "proj_100", name := "Big", description := ""
    status := ProjectStatus.active, ownerId := none, createdAt := 0
    updatedAt := 0, tasks := List.replicate 71 todoTask ++ List.replicate 29 doneTask
    milestones := [], teamMembers := [] }

/-- Concrete project for C2: 3 tasks of which 1 is DONE. -/
def project3 : Project :=
  { id := "proj_3", name := "Small", description := ""
    status := ProjectStatus.active, ownerId := none, createdAt := 0
    updatedAt := 0, tasks := [doneTask, todoTask, todoTask]
    milestones := [], teamMembers := [] }

/-- C2: evaluation of get_progress_percentage at the failing input.  With
100 tasks of which 29 are DONE, the method returns 28, not
floor(100 * 29 / 100) = 29: the float product (29/100)*100 rounds to
28.999999999999996 and int() truncates it.  The 1-DONE-of-3 example from
the claim does return 33, and an empty project returns 0. -/
theorem C2_progress_floating_point_bug :
    project100.tasks.length = 100 ∧
    (project100.getTasksByStatus TaskStatus.done).length = 29 ∧
    project100.getProgressPercentage = 28 ∧
    100 * 29 / 100 = 29 ∧
    project3.getProgressPercentage = 33 ∧
    ({ project3 with tasks := [] } : Project).getProgressPercentage = 0 := by
  refine ⟨by decide, by decide, by decide, by decide, by decide, by decide⟩

end TaskMgmt

namespace TaskMgmt

/-- Characters Python str.strip removes by default. -/
def pyWhitespace (c : Char) : Bool :=
  c == ' ' || c == '\t' || c == '\n' || c == '\x0d' || c == '\x0b' || c == '\x0c'

/-- Python str.lower for the ASCII strings handled here. -/
def pyLower (s : String) : String := String.mk (s.data.map Char.toLower)

/-- Python str.strip with no argument: remove leading and trailing
whitespace. -/
def pyStrip (s : String) : String :=
  String.mk (((s.data.dropWhile pyWhitespace).reverse.dropWhile pyWhitespace).reverse)

/-- Character class of the local part of User.EMAIL_REGEX. -/
def localChar (c : Char) : Bool :=
  c.isAlpha || c.isDigit || c == '.' || c == '_' || c == '%' || c == '+' || c == '-'

/-- Character class of the domain part of User.EMAIL_REGEX. -/
def domainChar (c : Char) : Bool :=
  c.isAlpha || c.isDigit || c == '.' || c == '-'

/-- Split a list at the first occurrence of a character, returning the
parts before and after it, or none when the character is absent. -/
def breakAtChar (c : Char) : List Char → Option (List Char × List Char)
  | [] => none
  | x :: xs =>
    if x = c then some ([], xs)
    else
      match breakAtChar c xs with
      | none => none
      | some (l, r) => some (x :: l, r)

/-- Decision procedure for User.EMAIL_REGEX, the anchored pattern of one
or more local characters, an at sign, one or more domain characters, a
dot, and two or more letters.  Splitting at the first at sign is complete
because neither character class contains an at sign, and splitting the
domain at its last dot is complete because the letters-only tail cannot
contain a dot, so no earlier dot can produce a match. -/
def emailRegexAccepts (s : List Char) : Bool :=
  match breakAtChar '@' s with
  | none => false
  | some (localPart, rest) =>
    match breakAtChar '.' rest.reverse with
    | none => false
    | some (revTld, revDomain) =>
      decide (localPart ≠ []) && localPart.all localChar &&
        rest.all domainChar && decide (revDomain ≠ []) &&
        decide (2 ≤ revTld.length) && revTld.all (fun c => c.isAlpha)

/-- User._validate_username from models/user.py: the length test runs on
the raw input, and only then is the input lower-cased and stripped. -/
def validateUsername (username : String) : Except PyErr String :=
  if username.length < 3 then
    Except.error (PyErr.validationError "Username must be at least 3 characters")
  else
    Except.ok (pyStrip (pyLower username))

/-- User._validate_email from models/user.py: strip, lower-case, then
match against EMAIL_REGEX. -/
def validateEmail (email : String) : Except PyErr String :=
  if emailRegexAccepts (pyLower (pyStrip email)).data then
    Except.ok (pyLower (pyStrip email))
  else Except.error (PyErr.validationError "Invalid email format")

/-- Abstraction of the PBKDF2-HMAC-SHA256 digest computed by
User._hash_password through the Python standard library (external to this
repository).  It is modelled as an injective pairing of password and
salt, which preserves what the proofs rely on: the digest is a
deterministic function of password and salt. -/
def pbkdf2Digest (password salt : String) : String :=
  "pbkdf2_sha256(" ++ password ++ "," ++ salt ++ ")"

/-- User._hash_password from models/user.py: rejects passwords shorter
than 6 characters, then stores salt and digest joined by a colon.  The
salt, drawn from the entropy source secrets.token_hex in the source, is
an explicit parameter here. -/
def hashPassword (password salt : String) : Except PyErr String :=
  if password.length < 6 then
    Except.error (PyErr.validationError "Password too short")
  else
    Except.ok (salt ++ ":" ++ pbkdf2Digest password salt)

/-- UserRole enumeration from models/user.py. -/
inductive UserRole where
  | admin
  | user
  | guest
deriving DecidableEq, Repr

/-- Serialized token of a UserRole, its Python enum value. -/
def UserRole.value : UserRole → String
  | UserRole.admin => "admin"
  | UserRole.user => "user"
  | UserRole.guest => "guest"

/-- Parse a UserRole token, as the Python enum constructor does. -/
def UserRole.fromValue : String → Option UserRole := fun s =>
  if s = "admin" then some UserRole.admin
  else if s = "user" then some UserRole.user
  else if s = "guest" then some UserRole.guest
  else none

/-- UserProfile dataclass from models/user.py. -/
structure UserProfile where
  firstName : String
  lastName : String
  bio : String
deriving DecidableEq, Repr

/-- The default (empty) profile a fresh User receives. -/
def emptyProfile : UserProfile := { firstName := "", lastName := "", bio := "" }

/-- Per-role permission table from User._get_permissions. -/
def rolePermissions : UserRole → List String
  | UserRole.admin => ["admin.panel", "user.manage", "system.settings"]
  | UserRole.user => ["profile.update", "content.create"]
  | UserRole.guest => ["content.read"]

/-- User entity from models/user.py: the fields held by a User object. -/
structure User where
  id : Option String
  username : String
  email : String
  passwordHash : String
  role : UserRole
  profile : UserProfile
  createdAt : Int
  permissions : List String
deriving DecidableEq, Repr

/-- User.__init__ from models/user.py: validates username and email,
hashes the password, and derives the permission set from the role. -/
def User.make (username email password : String) (role : UserRole)
    (salt : String) (now : Int) : Except PyErr User := do
  let uname ← validateUsername username
  let mail ← validateEmail email
  let hash ← hashPassword password salt
  Except.ok { id := none, username := uname, email := mail
              passwordHash := hash, role := role, profile := emptyProfile
              createdAt := now, permissions := rolePermissions role }

/-- User.is_admin from models/user.py. -/
def User.isAdmin (u : User) : Bool := u.role == UserRole.admin

/-- The key-value record User.to_dict produces; the password hash is
deliberately absent, exactly as in the source. -/
structure UserDict where
  id : Option String
  username : String
  email : String
  role : String
  profileFirstName : String
  profileLastName : String
  profileBio : String
  createdAt : Int
  permissions : List String
deriving DecidableEq, Repr

/-- User.to_dict from models/user.py. -/
def User.toDict (u : User) : UserDict :=
  { id := u.id, username := u.username, email := u.email
    role := u.role.value, profileFirstName := u.profile.firstName
    profileLastName := u.profile.lastName, profileBio := u.profile.bio
    createdAt := u.createdAt, permissions := u.permissions }

/-- User.from_dict from models/user.py: reconstructs through the
constructor with the fixed placeholder password "dummy", then overwrites
id, creation time, permissions, and profile from the record. -/
def User.fromDict (d : UserDict) (salt : String) (now : Int) :
    Except PyErr User :=
  match UserRole.fromValue d.role with
  | none =>
      Except.error (PyErr.valueError (d.role ++ " is not a valid UserRole"))
  | some role =>
      match User.make d.username d.email "dummy" role salt now with
      | Except.error e => Except.error e
      | Except.ok u =>
          Except.ok { u with
            id := d.id,
            createdAt := d.createdAt,
            permissions := d.permissions,
            profile := { firstName := d.profileFirstName,
                         lastName := d.profileLastName,
                         bio := d.profileBio } }

end TaskMgmt

namespace TaskMgmt

/-- Constructing a User with the placeholder password "dummy" can never
succeed: User._hash_password rejects every password shorter than 6
characters and "dummy" has 5. -/
theorem User.make_dummy_fails (un em : String) (r : UserRole) (s : String)
    (n : Int) (u : User) : User.make un em "dummy" r s n ≠ Except.ok u := by
  unfold User.make
  cases hu : validateUsername un with
  | error e => simp [Bind.bind, Except.bind]
  | ok v =>
    cases he : validateEmail em with
    | error e => simp [Bind.bind, Except.bind]
    | ok w =>
      have hh : hashPassword "dummy" s =
          Except.error (PyErr.validationError "Password too short") := by
        unfold hashPassword
        rw [if_pos (by decide)]
      simp [Bind.bind, Except.bind, hh]

/-- Sample user for C8, with the exact stored shape User.__init__
produces for username john_doe, email john@example.com and password
password123 hashed with salt somesalt. -/
def sampleUser : User :=
  { id := some "user_001", username := "john_doe", email := "john@example.com"
    passwordHash := "somesalt:pbkdf2_sha256(password123,somesalt)"
    role := UserRole.user, profile := emptyProfile, createdAt := 0
    permissions := rolePermissions UserRole.user }

/-- C8: the User round trip is broken.  from_dict reconstructs through
the constructor with the fixed placeholder password "dummy", which
_hash_password rejects as shorter than 6 characters, so from_dict(to_dict
u) raises ValidationError("Password too short") for the sample user, and
no call of from_dict can ever return a user. -/
theorem C8_user_from_dict_always_fails :
    User.fromDict (User.toDict sampleUser) "newsalt" 7 =
      Except.error (PyErr.validationError "Password too short") ∧
    ∀ d : UserDict, ∀ salt : String, ∀ now : Int, ∀ u : User,
      User.fromDict d salt now ≠ Except.ok u := by
  constructor
  · rfl
  · intro d salt now u h
    unfold User.fromDict at h
    cases hr : UserRole.fromValue d.role with
    | none =>
      simp only [hr] at h
      exact Except.noConfusion h
    | some role =>
      simp only [hr] at h
      cases hm : User.make d.username d.email "dummy" role salt now with
      | error e =>
        simp only [hm] at h
        exact Except.noConfusion h
      | ok u2 => exact User.make_dummy_fails d.username d.email role salt now u2 hm

/-- Witness for C8 at a concrete input: from_dict of the serialized
sample user does not return the sample user (it fails). -/
theorem C8_user_from_dict_always_fails_witness :
    User.fromDict (User.toDict sampleUser) "s2" 0 ≠ Except.ok sampleUser :=
  C8_user_from_dict_always_fails.2 (User.toDict sampleUser) "s2" 0 sampleUser

end TaskMgmt

namespace TaskMgmt

/-- Split a character list at every occurrence of a separator, the
semantics of Python str.split with an explicit separator. -/
def splitOnCharFull (c : Char) : List Char → List (List Char)
  | [] => [[]]
  | x :: xs =>
    let r := splitOnCharFull c xs
    if x = c then [] :: r
    else
      match r with
      | [] => [[x]]
      | h :: t => (x :: h) :: t

/-- User.verify_password from models/user.py: split the stored hash at
the colon into salt and digest, recompute the digest from the candidate
password and the stored salt, and compare.  A malformed stored hash
(anything but exactly two parts) is caught by the bare except and yields
False. -/
def User.verifyPassword (u : User) (password : String) : Bool :=
  match splitOnCharFull ':' u.passwordHash.data with
  | [saltPart, storedPart] =>
      pbkdf2Digest password (String.mk saltPart) == String.mk storedPart
  | _ => false

/-- User.change_password from models/user.py: verification of the old
password must succeed first, else ValidationError("Current password
incorrect"); then the new password is hashed (which itself can fail with
ValidationError("Password too short") before any field is assigned). -/
def User.changePassword (u : User) (oldPassword newPassword : String)
    (newSalt : String) : Except PyErr User :=
  if u.verifyPassword oldPassword then
    match hashPassword newPassword newSalt with
    | Except.error e => Except.error e
    | Except.ok h => Except.ok { u with passwordHash := h }
  else
    Except.error (PyErr.validationError "Current password incorrect")

/-- Decimal digits of a natural number, fuel-based so the kernel can
evaluate it; 20 digits cover every id counter arising here. -/
def natToDigits : Nat → Nat → List Char
  | 0, _ => []
  | fuel + 1, n =>
    if n < 10 then [Char.ofNat (48 + n)]
    else natToDigits fuel (n / 10) ++ [Char.ofNat (48 + n % 10)]

/-- Python str of a natural number. -/
def natToString (n : Nat) : String := String.mk (natToDigits 20 n)

/-- Assignment into a Python dict keyed by strings: replace the value in
place when the key is present, append a new entry otherwise (Python
dicts preserve insertion order). -/
def upsertEntry {α : Type} (data : List (String × α)) (k : String) (v : α) :
    List (String × α) :=
  if data.any (fun kv => kv.fst = k) then
    data.map (fun kv => if kv.fst = k then (k, v) else kv)
  else data ++ [(k, v)]

/-- UserRepository from repositories/user_repository.py: the dict of
users keyed by id, plus the _next_id counter of BaseRepository. -/
structure UserRepo where
  data : List (String × User)
  nextId : Nat
deriving DecidableEq, Repr

/-- UserRepository.get_by_id. -/
def UserRepo.getById (repo : UserRepo) (uid : String) : Option User :=
  (repo.data.find? (fun kv => kv.fst = uid)).map Prod.snd

/-- UserRepository.get_by_username: scan the stored users in order and
return the first whose stored username equals the query exactly. -/
def UserRepo.getByUsername (repo : UserRepo) (username : String) : Option User :=
  (repo.data.map Prod.snd).find? (fun u => u.username = username)

/-- UserRepository.get_by_email. -/
def UserRepo.getByEmail (repo : UserRepo) (email : String) : Option User :=
  (repo.data.map Prod.snd).find? (fun u => u.email = email)

/-- UserRepository.save: generate an id from the counter when the user
has none (or a falsy empty one), then assign into the dict. -/
def UserRepo.save (repo : UserRepo) (u : User) : User × UserRepo :=
  match u.id with
  | some uid =>
    if uid = "" then
      let nid := "userrepository_" ++ natToString repo.nextId
      let u2 := { u with id := some nid }
      (u2, { data := upsertEntry repo.data nid u2, nextId := repo.nextId + 1 })
    else
      (u, { repo with data := upsertEntry repo.data uid u })
  | none =>
    let nid := "userrepository_" ++ natToString repo.nextId
    let u2 := { u with id := some nid }
    (u2, { data := upsertEntry repo.data nid u2, nextId := repo.nextId + 1 })

/-- UserService.get_users_by_role from services/user_service.py. -/
def UserService.getUsersByRole (repo : UserRepo) (role : UserRole) : List User :=
  (repo.data.map Prod.snd).filter (fun u => u.role = role)

/-- Number of ADMIN users currently stored, the quantity
UserService.promote_user and deactivate_user recount before a change. -/
def adminCount (repo : UserRepo) : Nat :=
  (UserService.getUsersByRole repo UserRole.admin).length

/-- UserService.create_user from services/user_service.py: duplicate
checks compare the raw inputs against the stored (folded) values; a
ValidationError from the constructor is caught and re-raised as a
ValueError carrying the same message. -/
def UserService.createUser (repo : UserRepo) (username email password : String)
    (role : UserRole) (salt : String) (now : Int) :
    Except PyErr (User × UserRepo) :=
  if (repo.getByUsername username).isSome then
    Except.error (PyErr.valueError ("Username '" ++ username ++ "' already exists"))
  else if (repo.getByEmail email).isSome then
    Except.error (PyErr.valueError ("Email '" ++ email ++ "' already exists"))
  else
    match User.make username email password role salt now with
    | Except.error (PyErr.validationError msg) =>
        Except.error (PyErr.valueError msg)
    | Except.error e => Except.error e
    | Except.ok u => Except.ok (repo.save u)

/-- UserService.change_user_password from services/user_service.py: a
ValidationError from the entity is caught and re-raised as a ValueError
carrying the same message. -/
def UserService.changeUserPassword (repo : UserRepo)
    (userId oldPassword newPassword : String) (newSalt : String) :
    Except PyErr (User × UserRepo) :=
  match repo.getById userId with
  | none =>
      Except.error (PyErr.valueError ("User with ID " ++ userId ++ " not found"))
  | some user =>
    match user.changePassword oldPassword newPassword newSalt with
    | Except.error (PyErr.validationError msg) =>
        Except.error (PyErr.valueError msg)
    | Except.error e => Except.error e
    | Except.ok u2 => Except.ok (repo.save u2)

/-- UserService.promote_user from services/user_service.py: resolve
target and promoter, require an admin promoter, recount the stored
admins when an admin would be demoted and refuse to drop below one,
otherwise set the role, recompute permissions, and save. -/
def UserService.promoteUser (repo : UserRepo) (userId : String)
    (newRole : UserRole) (promoterId : String) :
    Except PyErr (User × UserRepo) :=
  match repo.getById userId with
  | none =>
      Except.error (PyErr.valueError ("User with ID " ++ userId ++ " not found"))
  | some user =>
    match repo.getById promoterId with
    | none =>
        Except.error
          (PyErr.valueError ("Promoter with ID " ++ promoterId ++ " not found"))
    | some promoter =>
      if promoter.isAdmin = false then
        Except.error (PyErr.permissionError "Only admins can promote users")
      else if user.isAdmin = true ∧ newRole ≠ UserRole.admin ∧
          (UserService.getUsersByRole repo UserRole.admin).length ≤ 1 then
        Except.error (PyErr.valueError "Cannot demote the last admin user")
      else
        Except.ok
          (repo.save
            { user with role := newRole, permissions := rolePermissions newRole })

/-- UserService.deactivate_user from services/user_service.py: same
shape as promote_user, with the role forced to GUEST. -/
def UserService.deactivateUser (repo : UserRepo)
    (userId deactivatorId : String) : Except PyErr (User × UserRepo) :=
  match repo.getById userId with
  | none =>
      Except.error (PyErr.valueError ("User with ID " ++ userId ++ " not found"))
  | some user =>
    match repo.getById deactivatorId with
    | none =>
        Except.error
          (PyErr.valueError ("Deactivator with ID " ++ deactivatorId ++ " not found"))
    | some deactivator =>
      if deactivator.isAdmin = false then
        Except.error (PyErr.permissionError "Only admins can deactivate users")
      else if user.isAdmin = true ∧
          (UserService.getUsersByRole repo UserRole.admin).length ≤ 1 then
        Except.error (PyErr.valueError "Cannot deactivate the last admin user")
      else
        Except.ok
          (repo.save
            { user with role := UserRole.guest
                        permissions := rolePermissions UserRole.guest })

end TaskMgmt

namespace TaskMgmt

/-- Well-formedness of the user repository dict: keys are unique (they
are dict keys in the source) and every stored user carries its own
(nonempty) key as id, which UserRepository.save establishes. -/
def UserRepo.WF (repo : UserRepo) : Prop :=
  (repo.data.map Prod.fst).Nodup ∧
  ∀ kv ∈ repo.data, kv.snd.id = some kv.fst ∧ kv.fst ≠ ""

/-- A successful get_by_id exhibits the entry in the dict. -/
theorem UserRepo.mem_of_getById {repo : UserRepo} {uid : String} {u : User}
    (h : repo.getById uid = some u) : (uid, u) ∈ repo.data := by
  unfold UserRepo.getById at h
  cases hf : repo.data.find? (fun kv => kv.fst = uid) with
  | none => rw [hf] at h; exact Option.noConfusion h
  | some kv =>
    rw [hf] at h
    have hmem := List.mem_of_find?_eq_some hf
    have hkey := List.find?_some hf
    simp only [decide_eq_true_eq] at hkey
    have hval : kv.snd = u := by simpa using h
    have : kv = (uid, u) := by
      cases kv
      simp only at hkey hval
      rw [hkey, hval]
    rw [this] at hmem
    exact hmem

/-- Admin count of a raw user dict, used to reason about saves. -/
def adminCountL (data : List (String × User)) : Nat :=
  ((data.map Prod.snd).filter (fun u => u.role = UserRole.admin)).length

/-- adminCount is the admin count of the underlying dict. -/
theorem adminCount_eq_adminCountL (repo : UserRepo) :
    adminCount repo = adminCountL repo.data := rfl

/-- Replacing nothing is the identity on a dict without the key. -/
theorem replace_map_id (data : List (String × User)) (k : String) (v : User)
    (h : ∀ kv ∈ data, kv.fst ≠ k) :
    data.map (fun kv => if kv.fst = k then (k, v) else kv) = data := by
  induction data with
  | nil => rfl
  | cons kv rest ih =>
    simp only [List.map_cons]
    rw [if_neg (h kv (List.mem_cons_self kv rest)),
      ih (fun kv2 hm => h kv2 (List.mem_cons_of_mem kv hm))]

/-- Overwriting the unique admin entry at key k with a non-admin value
decreases the admin count by exactly one. -/
theorem adminCountL_replace (k : String) (u v : User) :
    ∀ data : List (String × User),
      (data.map Prod.fst).Nodup → (k, u) ∈ data →
      u.role = UserRole.admin → v.role ≠ UserRole.admin →
      adminCountL (data.map (fun kv => if kv.fst = k then (k, v) else kv)) + 1 =
        adminCountL data := by
  intro data
  induction data with
  | nil => intro _ hm; exact absurd hm (List.not_mem_nil _)
  | cons kv rest ih =>
    intro hnd hm hadm hvna
    rw [List.map_cons, List.nodup_cons] at hnd
    rcases List.mem_cons.mp hm with heq | hrest
    · subst heq
      simp only [List.map_cons, if_pos rfl]
      rw [replace_map_id rest k v
        (fun kv2 hm2 h2 => hnd.1 (by exact List.mem_map.mpr ⟨kv2, hm2, h2⟩))]
      unfold adminCountL
      simp only [List.map_cons, List.filter_cons]
      rw [if_neg (by simpa using hvna), if_pos (by simpa using hadm)]
      simp [Nat.add_comm]
    · have hkne : kv.fst ≠ k := by
        intro hk
        exact hnd.1 (hk ▸ List.mem_map_of_mem Prod.fst hrest)
      simp only [List.map_cons, if_neg hkne]
      unfold adminCountL
      simp only [List.map_cons, List.filter_cons]
      by_cases hr : kv.snd.role = UserRole.admin
      · rw [if_pos (by simpa using hr), if_pos (by simpa using hr)]
        have := ih hnd.2 hrest hadm hvna
        unfold adminCountL at this
        simp only [List.length_cons]
        omega
      · rw [if_neg (by simpa using hr), if_neg (by simpa using hr)]
        exact ih hnd.2 hrest hadm hvna

end TaskMgmt

namespace TaskMgmt

/-- C4: with exactly one stored ADMIN, demoting that admin to a
non-admin role or deactivating them fails (so the collection never
reaches a zero-admin state, the count being recomputed from the stored
users at call time); with at least two admins, demotion succeeds and
leaves exactly one admin fewer. -/
theorem C4_last_admin_protected (repo : UserRepo) (uid pid : String)
    (user promoter : User) (newRole : UserRole)
    (hwf : repo.WF)
    (hu : repo.getById uid = some user) (hadm : user.role = UserRole.admin)
    (hp : repo.getById pid = some promoter)
    (hpadm : promoter.role = UserRole.admin)
    (hr : newRole ≠ UserRole.admin) :
    (adminCount repo = 1 →
      UserService.promoteUser repo uid newRole pid =
        Except.error (PyErr.valueError "Cannot demote the last admin user") ∧
      UserService.deactivateUser repo uid pid =
        Except.error (PyErr.valueError "Cannot deactivate the last admin user")) ∧
    (2 ≤ adminCount repo →
      ∃ u2 repo2,
        UserService.promoteUser repo uid newRole pid = Except.ok (u2, repo2) ∧
        u2.role = newRole ∧ adminCount repo2 + 1 = adminCount repo) := by
  have hmem := UserRepo.mem_of_getById hu
  have hid : user.id = some uid := (hwf.2 _ hmem).1
  have hne : uid ≠ "" := (hwf.2 _ hmem).2
  have hpb : promoter.isAdmin = true := by simp [User.isAdmin, hpadm]
  have hub : user.isAdmin = true := by simp [User.isAdmin, hadm]
  have hcount : (UserService.getUsersByRole repo UserRole.admin).length =
      adminCount repo := rfl
  constructor
  · intro h1
    constructor
    · unfold UserService.promoteUser
      simp only [hu, hp]
      rw [if_neg (by rw [hpb]; exact fun h => Bool.noConfusion h),
        if_pos ⟨hub, hr, by rw [hcount, h1]⟩]
    · unfold UserService.deactivateUser
      simp only [hu, hp]
      rw [if_neg (by rw [hpb]; exact fun h => Bool.noConfusion h),
        if_pos ⟨hub, by rw [hcount, h1]⟩]
  · intro h2
    refine ⟨{ user with role := newRole, permissions := rolePermissions newRole },
      { repo with
        data := upsertEntry repo.data uid
          { user with role := newRole, permissions := rolePermissions newRole },
        nextId := repo.nextId }, ?_, rfl, ?_⟩
    · unfold UserService.promoteUser
      simp only [hu, hp]
      rw [if_neg (by rw [hpb]; exact fun h => Bool.noConfusion h),
        if_neg (by rintro ⟨-, -, hle⟩; rw [hcount] at hle; omega)]
      unfold UserRepo.save
      simp only [hid]
      rw [if_neg hne]
    · have hany : repo.data.any (fun kv => kv.fst = uid) = true :=
        List.any_eq_true.mpr ⟨(uid, user), hmem, by simp⟩
      show adminCountL (upsertEntry repo.data uid _) + 1 = adminCount repo
      unfold upsertEntry
      rw [if_pos hany, adminCount_eq_adminCountL]
      exact adminCountL_replace uid user _ repo.data hwf.1 hmem hadm
        (by simpa using hr)

end TaskMgmt

namespace TaskMgmt

/-- Concrete ADMIN user alice with id u1. -/
def adminAlice : User :=
  { id := some "u1", username := "alice", email := "alice@example.com"
    passwordHash := "s1:pbkdf2_sha256(password123,s1)"
    role := UserRole.admin, profile := emptyProfile, createdAt := 0
    permissions := rolePermissions UserRole.admin }

/-- Concrete ADMIN user carol with id u2. -/
def adminCarol : User :=
  { id := some "u2", username := "carol", email := "carol@example.com"
    passwordHash := "s2:pbkdf2_sha256(password456,s2)"
    role := UserRole.admin, profile := emptyProfile, createdAt := 0
    permissions := rolePermissions UserRole.admin }

/-- Concrete STANDARD (USER-role) user bob with id u3. -/
def standardBob : User :=
  { id := some "u3", username := "bob", email := "bob@example.com"
    passwordHash := "s3:pbkdf2_sha256(password789,s3)"
    role := UserRole.user, profile := emptyProfile, createdAt := 0
    permissions := rolePermissions UserRole.user }

/-- Repository holding exactly one admin. -/
def oneAdminRepo : UserRepo := { data := [("u1", adminAlice)], nextId := 2 }

/-- Repository holding two admins. -/
def twoAdminRepo : UserRepo :=
  { data := [("u1", adminAlice), ("u2", adminCarol)], nextId := 3 }

/-- Witness for C4 at concrete inputs: the sole admin cannot demote
herself to USER, and with two admins the demotion of the second succeeds
leaving one admin. -/
theorem C4_last_admin_protected_witness :
    (UserService.promoteUser oneAdminRepo "u1" UserRole.user "u1" =
      Except.error (PyErr.valueError "Cannot demote the last admin user") ∧
     UserService.deactivateUser oneAdminRepo "u1" "u1" =
      Except.error (PyErr.valueError "Cannot deactivate the last admin user")) ∧
    (∃ u2 repo2,
      UserService.promoteUser twoAdminRepo "u2" UserRole.user "u1" =
        Except.ok (u2, repo2) ∧
      u2.role = UserRole.user ∧ adminCount repo2 + 1 = adminCount twoAdminRepo) := by
  constructor
  · exact (C4_last_admin_protected oneAdminRepo "u1" "u1" adminAlice adminAlice
      UserRole.user (by constructor <;> decide) (by decide) (by decide)
      (by decide) (by decide) (by decide)).1 (by decide)
  · exact (C4_last_admin_protected twoAdminRepo "u2" "u1" adminCarol adminAlice
      UserRole.user (by constructor <;> decide) (by decide) (by decide)
      (by decide) (by decide) (by decide)).2 (by decide)

end TaskMgmt

namespace TaskMgmt

/-- TaskRepository from repositories/task_repository.py. -/
structure TaskRepo where
  data : List (String × Task)
  nextId : Nat
deriving DecidableEq, Repr

/-- TaskRepository.get_by_id. -/
def TaskRepo.getById (repo : TaskRepo) (tid : String) : Option Task :=
  (repo.data.find? (fun kv => kv.fst = tid)).map Prod.snd

/-- TaskRepository.save: a Task always carries a nonempty uuid id, so
only the falsy-empty-string case generates a fresh key. -/
def TaskRepo.save (repo : TaskRepo) (t : Task) : Task × TaskRepo :=
  if t.id = "" then
    let nid := "taskrepository_" ++ natToString repo.nextId
    let t2 := { t with id := nid }
    (t2, { data := upsertEntry repo.data nid t2, nextId := repo.nextId + 1 })
  else
    (t, { repo with data := upsertEntry repo.data t.id t })

/-- TaskService._can_modify_task from services/task_service.py: the
acting user must be stored, and must be an admin or the assignee. -/
def TaskService.canModifyTask (urepo : UserRepo) (userId : String)
    (task : Task) : Bool :=
  match urepo.getById userId with
  | none => false
  | some u =>
    if u.isAdmin then true
    else if task.assigneeId = some userId then true
    else false

/-- TaskService._can_assign_task from services/task_service.py: only a
stored admin may assign. -/
def TaskService.canAssignTask (urepo : UserRepo) (userId : String)
    (_task : Task) : Bool :=
  match urepo.getById userId with
  | none => false
  | some u =>
    if u.isAdmin then true
    else false

/-- TaskService._can_comment_on_task from services/task_service.py:
admins and the assignee may comment. -/
def TaskService.canCommentOnTask (urepo : UserRepo) (userId : String)
    (task : Task) : Bool :=
  match urepo.getById userId with
  | none => false
  | some u =>
    if u.isAdmin then true
    else if task.assigneeId = some userId then true
    else false

/-- TaskService.update_task_status from services/task_service.py:
resolve the task, check permission when an acting user id is supplied,
let the entity perform the transition (whose failure propagates
unchanged), and save. -/
def TaskService.updateTaskStatus (trepo : TaskRepo) (urepo : UserRepo)
    (taskId : String) (newStatus : TaskStatus) (userId : Option String)
    (now : Int) : Except PyErr (Task × TaskRepo) :=
  match trepo.getById taskId with
  | none =>
      Except.error (PyErr.valueError ("Task with ID " ++ taskId ++ " not found"))
  | some task =>
    let check : Except PyErr Unit :=
      match userId with
      | none => Except.ok ()
      | some uid =>
        if TaskService.canModifyTask urepo uid task then Except.ok ()
        else
          Except.error
            (PyErr.permissionError
              "User does not have permission to modify this task")
    match check with
    | Except.error e => Except.error e
    | Except.ok _ =>
      match task.updateStatus newStatus now with
      | Except.error e => Except.error e
      | Except.ok t2 => Except.ok (trepo.save t2)

/-- TaskService.assign_task from services/task_service.py: resolve task
and assignee, require assignment permission, set the assignee (which
refreshes the updated timestamp through the property setter), save. -/
def TaskService.assignTask (trepo : TaskRepo) (urepo : UserRepo)
    (taskId assigneeId assignerId : String) (now : Int) :
    Except PyErr (Task × TaskRepo) :=
  match trepo.getById taskId with
  | none =>
      Except.error (PyErr.valueError ("Task with ID " ++ taskId ++ " not found"))
  | some task =>
    match urepo.getById assigneeId with
    | none =>
        Except.error
          (PyErr.valueError ("Assignee with ID " ++ assigneeId ++ " not found"))
    | some _ =>
      if TaskService.canAssignTask urepo assignerId task then
        Except.ok
          (trepo.save { task with assigneeId := some assigneeId, updatedAt := now })
      else
        Except.error
          (PyErr.permissionError "User does not have permission to assign this task")

end TaskMgmt

namespace TaskMgmt

/-- C5: a stored acting user may modify a task iff they are an admin or
the assignee of the task; commenting is governed by exactly the same
rule; assignment requires the admin role specifically, so a stored
non-admin (even the assignee) gets PermissionDenied from assign_task
while a stored admin succeeds; and the assignee can update the status of
their own task. -/
theorem C5_task_permissions (trepo : TaskRepo) (urepo : UserRepo)
    (tid uid aid : String) (t : Task) (u a : User) (s : TaskStatus)
    (now : Int) :
    (urepo.getById uid = some u →
      (TaskService.canModifyTask urepo uid t = true ↔
        (u.role = UserRole.admin ∨ t.assigneeId = some uid))) ∧
    (TaskService.canCommentOnTask urepo uid t =
      TaskService.canModifyTask urepo uid t) ∧
    (urepo.getById uid = some u →
      (TaskService.canAssignTask urepo uid t = true ↔
        u.role = UserRole.admin)) ∧
    (trepo.getById tid = some t → urepo.getById uid = some u →
      t.assigneeId = some uid → t.status ≠ TaskStatus.done →
      ∃ t2 r2, TaskService.updateTaskStatus trepo urepo tid s (some uid) now =
        Except.ok (t2, r2) ∧ t2.status = s) ∧
    (trepo.getById tid = some t → urepo.getById uid = some u →
      u.role ≠ UserRole.admin → urepo.getById aid = some a →
      TaskService.assignTask trepo urepo tid aid uid now =
        Except.error
          (PyErr.permissionError
            "User does not have permission to assign this task")) ∧
    (trepo.getById tid = some t → urepo.getById uid = some u →
      u.role = UserRole.admin → urepo.getById aid = some a →
      ∃ t2 r2, TaskService.assignTask trepo urepo tid aid uid now =
        Except.ok (t2, r2) ∧ t2.assigneeId = some aid) := by
  refine ⟨?_, ?_, ?_, ?_, ?_, ?_⟩
  · intro hu
    by_cases hadm : u.role = UserRole.admin
    · simp [TaskService.canModifyTask, hu, User.isAdmin, hadm]
    · have hb : u.isAdmin = false := by simp [User.isAdmin, hadm]
      simp only [TaskService.canModifyTask, hu, hb, if_false]
      by_cases hass : t.assigneeId = some uid
      · simp [hass, hadm]
      · simp [hass, hadm]
  · unfold TaskService.canCommentOnTask TaskService.canModifyTask
    rfl
  · intro hu
    by_cases hadm : u.role = UserRole.admin
    · simp [TaskService.canAssignTask, hu, User.isAdmin, hadm]
    · have hb : u.isAdmin = false := by simp [User.isAdmin, hadm]
      simp [TaskService.canAssignTask, hu, hb, hadm]
  · intro ht hu hass hnd
    have hcan : TaskService.canModifyTask urepo uid t = true := by
      unfold TaskService.canModifyTask
      rw [hu]
      by_cases hadm : u.isAdmin
      · simp [hadm]
      · simp [hadm, hass]
    have hup : t.updateStatus s now =
        Except.ok { t with status := s, updatedAt := now } := by
      unfold Task.updateStatus
      rw [if_neg (by rintro ⟨hd, -⟩; exact hnd hd)]
    unfold TaskService.updateTaskStatus
    simp only [ht, hcan, if_true, hup]
    unfold TaskRepo.save
    by_cases hid : ({ t with status := s, updatedAt := now } : Task).id = ""
    · rw [if_pos hid]
      exact ⟨_, _, rfl, rfl⟩
    · rw [if_neg hid]
      exact ⟨_, _, rfl, rfl⟩
  · intro ht hu hnadm ha
    have hcan : TaskService.canAssignTask urepo uid t = false := by
      unfold TaskService.canAssignTask
      rw [hu]
      simp [User.isAdmin, hnadm]
    unfold TaskService.assignTask
    simp only [ht, ha, hcan]
    rfl
  · intro ht hu hadm ha
    have hcan : TaskService.canAssignTask urepo uid t = true := by
      unfold TaskService.canAssignTask
      rw [hu]
      simp [User.isAdmin, hadm]
    unfold TaskService.assignTask
    simp only [ht, ha, hcan, if_true]
    unfold TaskRepo.save
    by_cases hid :
        ({ t with assigneeId := some aid, updatedAt := now } : Task).id = ""
    · rw [if_pos hid]
      exact ⟨_, _, rfl, rfl⟩
    · rw [if_neg hid]
      exact ⟨_, _, rfl, rfl⟩

end TaskMgmt

namespace TaskMgmt

/-- Task assigned to the standard user bob (id u3). -/
def taskForBob : Task :=
  { id := "t1", title := "Set up environment", description := ""
    status := TaskStatus.todo, priority := TaskPriority.medium
    assigneeId := some "u3", dueDate := none, createdAt := 0, updatedAt := 0
    comments := [], tags := [] }

/-- User repository with admin alice (u1) and standard bob (u3). -/
def scenarioUserRepo : UserRepo :=
  { data := [("u1", adminAlice), ("u3", standardBob)], nextId := 4 }

/-- Task repository holding the task assigned to bob. -/
def scenarioTaskRepo : TaskRepo := { data := [("t1", taskForBob)], nextId := 2 }

/-- Witness for C5 at the end-to-end scenario of the claim: bob (the
non-admin assignee) updates the status of his task, bob cannot assign it,
alice (admin) can. -/
theorem C5_task_permissions_witness :
    (∃ t2 r2, TaskService.updateTaskStatus scenarioTaskRepo scenarioUserRepo
        "t1" TaskStatus.inProgress (some "u3") 10 = Except.ok (t2, r2) ∧
      t2.status = TaskStatus.inProgress) ∧
    TaskService.assignTask scenarioTaskRepo scenarioUserRepo "t1" "u1" "u3" 11 =
      Except.error
        (PyErr.permissionError
          "User does not have permission to assign this task") ∧
    (∃ t2 r2, TaskService.assignTask scenarioTaskRepo scenarioUserRepo
        "t1" "u1" "u1" 12 = Except.ok (t2, r2) ∧
      t2.assigneeId = some "u1") := by
  refine ⟨?_, ?_, ?_⟩
  · exact (C5_task_permissions scenarioTaskRepo scenarioUserRepo "t1" "u3" "u1"
      taskForBob standardBob adminAlice TaskStatus.inProgress 10).2.2.2.1
      (by decide) (by decide) (by decide) (by decide)
  · exact (C5_task_permissions scenarioTaskRepo scenarioUserRepo "t1" "u3" "u1"
      taskForBob standardBob adminAlice TaskStatus.inProgress 11).2.2.2.2.1
      (by decide) (by decide) (by decide) (by decide)
  · exact (C5_task_permissions scenarioTaskRepo scenarioUserRepo "t1" "u1" "u1"
      taskForBob adminAlice adminAlice TaskStatus.inProgress 12).2.2.2.2.2
      (by decide) (by decide) (by decide) (by decide)

end TaskMgmt

namespace TaskMgmt

/-- The stored username produced by a successful validation is the
lower-cased, stripped input. -/
theorem validateUsername_ok {un v : String}
    (h : validateUsername un = Except.ok v) : v = pyStrip (pyLower un) := by
  unfold validateUsername at h
  by_cases hl : un.length < 3
  · rw [if_pos hl] at h
    exact Except.noConfusion h
  · rw [if_neg hl] at h
    exact (Except.ok.inj h).symm

/-- The stored email produced by a successful validation is the
stripped, lower-cased input. -/
theorem validateEmail_ok {em w : String}
    (h : validateEmail em = Except.ok w) : w = pyLower (pyStrip em) := by
  unfold validateEmail at h
  by_cases hm : emailRegexAccepts (pyLower (pyStrip em)).data
  · rw [if_pos hm] at h
    exact (Except.ok.inj h).symm
  · rw [if_neg hm] at h
    exact Except.noConfusion h

/-- Empty user repository, with the counter at its initial value 1. -/
def emptyUserRepo : UserRepo := { data := [], nextId := 1 }

/-- C7 counterexample: the raw username "ab " has length 3 and passes
validation, but the stored username is its lower-cased strip "ab" of
length 2, so a stored username can be shorter than 3 characters. -/
theorem C7_short_stored_username_counterexample :
    Except.map (fun x => x.fst.username)
      (UserService.createUser emptyUserRepo "ab " "a@b.co" "password123"
        UserRole.user "somesalt" 0) = Except.ok "ab" ∧
    ("ab " : String).length = 3 ∧ ("ab" : String).length < 3 := by
  refine ⟨by decide, by decide, by decide⟩

/-- C7 amended: creating a user whose raw username is shorter than 3
characters fails with ValidationError; on success the stored username is
the lower-cased strip of the input (which may drop below 3 characters)
and the stored email is the stripped lower-casing of the input; the
duplicate checks fail with AlreadyExists when the raw input equals a
stored username or email; and when neither raw input matches a stored
value the duplicate checks pass and the outcome is determined by the
constructor alone: creation succeeds (saving the constructed user)
whenever the constructor accepts the fields - even for a case-variant of
an existing username, which is stored folded and so duplicates the
existing one - and otherwise fails with the constructor's validation
failure converted to ValueError, carrying the constructor's message. -/
theorem C7_user_creation_validation (repo : UserRepo) (un em pw : String)
    (r : UserRole) (s : String) (n : Int) (u : User) :
    (un.length < 3 →
      User.make un em pw r s n =
        Except.error
          (PyErr.validationError "Username must be at least 3 characters")) ∧
    (User.make un em pw r s n = Except.ok u →
      u.username = pyStrip (pyLower un) ∧ u.email = pyLower (pyStrip em)) ∧
    ((repo.getByUsername un).isSome →
      UserService.createUser repo un em pw r s n =
        Except.error
          (PyErr.valueError ("Username '" ++ un ++ "' already exists"))) ∧
    ((repo.getByUsername un).isSome = false → (repo.getByEmail em).isSome →
      UserService.createUser repo un em pw r s n =
        Except.error
          (PyErr.valueError ("Email '" ++ em ++ "' already exists"))) ∧
    ((repo.getByUsername un).isSome = false →
      (repo.getByEmail em).isSome = false →
      User.make un em pw r s n = Except.ok u →
      UserService.createUser repo un em pw r s n = Except.ok (repo.save u)) ∧
    ((repo.getByUsername un).isSome = false →
      (repo.getByEmail em).isSome = false →
      ∀ msg, User.make un em pw r s n =
          Except.error (PyErr.validationError msg) →
        UserService.createUser repo un em pw r s n =
          Except.error (PyErr.valueError msg)) := by
  refine ⟨?_, ?_, ?_, ?_, ?_, ?_⟩
  · intro hl
    unfold User.make
    have hv : validateUsername un =
        Except.error (PyErr.validationError "Username must be at least 3 characters") := by
      unfold validateUsername
      rw [if_pos hl]
    rw [hv]
    simp [Bind.bind, Except.bind]
  · intro hok
    unfold User.make at hok
    cases hv : validateUsername un with
    | error e =>
      rw [hv] at hok
      simp [Bind.bind, Except.bind] at hok
    | ok v =>
      rw [hv] at hok
      cases he : validateEmail em with
      | error e =>
        rw [he] at hok
        simp [Bind.bind, Except.bind] at hok
      | ok w =>
        rw [he] at hok
        cases hh : hashPassword pw s with
        | error e =>
          rw [hh] at hok
          simp [Bind.bind, Except.bind] at hok
        | ok h2 =>
          rw [hh] at hok
          simp only [Bind.bind, Except.bind] at hok
          have := Except.ok.inj hok
          rw [← this, validateUsername_ok hv, validateEmail_ok he]
          exact ⟨rfl, rfl⟩
  · intro hdup
    unfold UserService.createUser
    rw [if_pos hdup]
  · intro hnou hdup
    unfold UserService.createUser
    rw [if_neg (by rw [hnou]; exact fun h => Bool.noConfusion h), if_pos hdup]
  · intro hnou hnoe hmake
    unfold UserService.createUser
    rw [if_neg (by rw [hnou]; exact fun h => Bool.noConfusion h),
      if_neg (by rw [hnoe]; exact fun h => Bool.noConfusion h), hmake]
  · intro hnou hnoe msg hmake
    unfold UserService.createUser
    rw [if_neg (by rw [hnou]; exact fun h => Bool.noConfusion h),
      if_neg (by rw [hnoe]; exact fun h => Bool.noConfusion h), hmake]

/-- User repository already holding the sample user john_doe. -/
def johnRepo : UserRepo := { data := [("user_001", sampleUser)], nextId := 2 }

/-- The user the constructor builds for the case-variant input JOHN_DOE
with email JOHN@example.com, password password123, and salt s9. -/
def johnCaseVariant : User :=
  { id := none, username := "john_doe", email := "john@example.com"
    passwordHash := "s9:pbkdf2_sha256(password123,s9)"
    role := UserRole.user, profile := emptyProfile, createdAt := 0
    permissions := rolePermissions UserRole.user }

/-- Witness for C7 amended at concrete inputs: a 2-character username is
rejected with ValidationError, re-creating john_doe by its exact raw
username or email fails with the AlreadyExists error, and creating the
case-variant JOHN_DOE - whose raw input matches no stored value - is not
rejected: it succeeds and stores the folded username john_doe, a
duplicate of the existing stored username. -/
theorem C7_user_creation_validation_witness :
    (User.make "ab" "a@b.co" "password123" UserRole.user "somesalt" 0 =
      Except.error
        (PyErr.validationError "Username must be at least 3 characters")) ∧
    (UserService.createUser johnRepo "john_doe" "new@example.com"
        "password123" UserRole.user "somesalt" 0 =
      Except.error
        (PyErr.valueError "Username 'john_doe' already exists")) ∧
    (UserService.createUser johnRepo "fresh_name" "john@example.com"
        "password123" UserRole.user "somesalt" 0 =
      Except.error
        (PyErr.valueError "Email 'john@example.com' already exists")) ∧
    (UserService.createUser johnRepo "JOHN_DOE" "JOHN@example.com"
        "password123" UserRole.user "s9" 0 =
      Except.ok (johnRepo.save johnCaseVariant) ∧
      (johnRepo.save johnCaseVariant).fst.username = sampleUser.username) := by
  refine ⟨?_, ?_, ?_, ?_, ?_⟩
  · exact (C7_user_creation_validation emptyUserRepo "ab" "a@b.co"
      "password123" UserRole.user "somesalt" 0 sampleUser).1 (by decide)
  · exact (C7_user_creation_validation johnRepo "john_doe" "new@example.com"
      "password123" UserRole.user "somesalt" 0 sampleUser).2.2.1 (by decide)
  · exact (C7_user_creation_validation johnRepo "fresh_name"
      "john@example.com" "password123" UserRole.user "somesalt" 0
      sampleUser).2.2.2.1 (by decide) (by decide)
  · exact (C7_user_creation_validation johnRepo "JOHN_DOE" "JOHN@example.com"
      "password123" UserRole.user "s9" 0 johnCaseVariant).2.2.2.2.1
      (by decide) (by decide) (by decide)
  · decide

end TaskMgmt

namespace TaskMgmt

/-- C9 counterexample: for a too-short username, the entity constructor
raises ValidationError, but UserService.create_user catches it and
re-raises it as a ValueError with the same message, so the failure does
not propagate to the caller unchanged and the distinguishing kind
(ValidationError) is lost. -/
theorem C9_error_kind_counterexample :
    UserService.createUser emptyUserRepo "ab" "a@b.co" "password123"
        UserRole.user "somesalt" 0 =
      Except.error
        (PyErr.valueError "Username must be at least 3 characters") ∧
    User.make "ab" "a@b.co" "password123" UserRole.user "somesalt" 0 =
      Except.error
        (PyErr.validationError "Username must be at least 3 characters") ∧
    PyErr.valueError "Username must be at least 3 characters" ≠
      PyErr.validationError "Username must be at least 3 characters" := by
  refine ⟨by decide, by decide, by decide⟩

/-- C9 amended: service failures carry the entity message and nothing is
committed on failure (every error result is produced without a new
repository value, and all entity raises occur before any field
assignment), but UserService.create_user and change_user_password
convert an entity ValidationError into a ValueError with the same
message, while TaskService.update_task_status propagates the entity
InvalidTransition failure completely unchanged. -/
theorem C9_error_propagation (repo : UserRepo) (trepo : TaskRepo)
    (urepo : UserRepo) (un em pw salt msg uid tid oldPw newPw newSalt : String)
    (r : UserRole) (ns : TaskStatus) (n now : Int) (t : Task) (u : User) :
    (repo.getByUsername un = none → repo.getByEmail em = none →
      User.make un em pw r salt n = Except.error (PyErr.validationError msg) →
      UserService.createUser repo un em pw r salt n =
        Except.error (PyErr.valueError msg)) ∧
    (trepo.getById tid = some t →
      TaskService.canModifyTask urepo uid t = true →
      t.status = TaskStatus.done → ns ≠ TaskStatus.done →
      TaskService.updateTaskStatus trepo urepo tid ns (some uid) now =
        Except.error
          (PyErr.valueError "Cannot change status of completed task")) ∧
    (repo.getById uid = some u →
      u.changePassword oldPw newPw newSalt =
        Except.error (PyErr.validationError msg) →
      UserService.changeUserPassword repo uid oldPw newPw newSalt =
        Except.error (PyErr.valueError msg)) := by
  refine ⟨?_, ?_, ?_⟩
  · intro hnu hne hmake
    unfold UserService.createUser
    rw [if_neg (by rw [hnu]; exact fun h => Bool.noConfusion h),
      if_neg (by rw [hne]; exact fun h => Bool.noConfusion h), hmake]
  · intro ht hcan hdone hns
    have hup : t.updateStatus ns now =
        Except.error (PyErr.valueError "Cannot change status of completed task") := by
      unfold Task.updateStatus
      rw [if_pos ⟨hdone, hns⟩]
    unfold TaskService.updateTaskStatus
    simp only [ht, hcan, if_true, hup]
  · intro hu hcp
    unfold UserService.changeUserPassword
    simp only [hu, hcp]

/-- Witness for C9 amended at concrete inputs: the short-username
creation yields the converted ValueError, updating a DONE task through
the service yields the entity error unchanged, and a password change
with a wrong old password yields the converted ValueError. -/
theorem C9_error_propagation_witness :
    UserService.createUser emptyUserRepo "ab" "a@b.co" "password123"
        UserRole.user "somesalt" 1 =
      Except.error
        (PyErr.valueError "Username must be at least 3 characters") ∧
    TaskService.updateTaskStatus { data := [("task_1", doneTask)], nextId := 2 }
        scenarioUserRepo "task_1" TaskStatus.todo (some "u1") 3 =
      Except.error
        (PyErr.valueError "Cannot change status of completed task") ∧
    UserService.changeUserPassword johnRepo "user_001" "wrongpass"
        "newpassword" "newsalt" =
      Except.error (PyErr.valueError "Current password incorrect") := by
  refine ⟨?_, ?_, ?_⟩
  · exact (C9_error_propagation emptyUserRepo { data := [], nextId := 1 }
      emptyUserRepo "ab" "a@b.co" "password123" "somesalt"
      "Username must be at least 3 characters" "x" "y" "o" "n" "ns"
      UserRole.user TaskStatus.todo 1 1 doneTask sampleUser).1
      (by decide) (by decide) (by decide)
  · exact (C9_error_propagation emptyUserRepo
      { data := [("task_1", doneTask)], nextId := 2 } scenarioUserRepo
      "ab" "a@b.co" "password123" "somesalt" "m" "u1" "task_1" "o" "n" "ns"
      UserRole.user TaskStatus.todo 1 3 doneTask sampleUser).2.1
      (by decide) (by decide) (by decide) (by decide)
  · exact (C9_error_propagation johnRepo { data := [], nextId := 1 }
      emptyUserRepo "ab" "a@b.co" "password123" "somesalt"
      "Current password incorrect" "user_001" "y" "wrongpass" "newpassword"
      "newsalt" UserRole.user TaskStatus.todo 1 1 doneTask sampleUser).2.2
      (by decide) (by decide)

end TaskMgmt

namespace TaskMgmt

/-- TeamRole enumeration from models/team.py. -/
inductive TeamRole where
  | leader
  | member
  | contributor
deriving DecidableEq, Repr

/-- TeamMember dataclass from models/team.py. -/
structure TeamMember where
  userId : String
  role : TeamRole
  joinedAt : Int
  permissions : List String
deriving DecidableEq, Repr

/-- Per-role permission table from Team._get_default_permissions. -/
def teamRolePermissions : TeamRole → List String
  | TeamRole.leader =>
      ["team.manage", "project.create", "project.assign",
       "member.add", "member.remove", "member.promote"]
  | TeamRole.member =>
      ["project.view", "task.create", "task.assign",
       "comment.add", "milestone.view"]
  | TeamRole.contributor =>
      ["project.view", "task.view", "comment.add"]

/-- Team entity from models/team.py: the fields held by a Team object. -/
structure Team where
  id : String
  name : String
  description : String
  leaderId : Option String
  createdAt : Int
  updatedAt : Int
  members : List TeamMember
  projects : List String
deriving DecidableEq, Repr

/-- Team.is_member from models/team.py. -/
def Team.isMember (t : Team) (userId : String) : Bool :=
  t.members.any (fun m => m.userId = userId)

/-- Team.get_member_role from models/team.py. -/
def Team.getMemberRole (t : Team) (userId : String) : Option TeamRole :=
  (t.members.find? (fun m => m.userId = userId)).map TeamMember.role

/-- Team.add_member from models/team.py: fails with AlreadyMember when
the user id is present, otherwise appends a member with the default
permissions of the role. -/
def Team.addMember (t : Team) (userId : String) (role : TeamRole)
    (now : Int) : Except PyErr (TeamMember × Team) :=
  if t.isMember userId then
    Except.error (PyErr.valueError "User is already a member of this team")
  else
    let m : TeamMember :=
      { userId := userId, role := role, joinedAt := now
        permissions := teamRolePermissions role }
    Except.ok (m, { t with members := t.members ++ [m], updatedAt := now })

/-- Remove the first member with the given id, if any. -/
def popFirstMember (userId : String) : List TeamMember → Option (List TeamMember)
  | [] => none
  | m :: ms =>
    if m.userId = userId then some ms
    else (popFirstMember userId ms).map (fun r => m :: r)

/-- Team.remove_member from models/team.py: the loop finds the first
member with the target id; only when such a member exists is the
leader check performed (ValueError("Cannot remove team leader")); when
no member matches, the method returns False without raising, even when
the target equals leader_id. -/
def Team.removeMember (t : Team) (userId : String) (now : Int) :
    Except PyErr (Bool × Team) :=
  if t.isMember userId then
    if t.leaderId = some userId then
      Except.error (PyErr.valueError "Cannot remove team leader")
    else
      match popFirstMember userId t.members with
      | some ms => Except.ok (true, { t with members := ms, updatedAt := now })
      | none => Except.ok (false, t)
  else
    Except.ok (false, t)

/-- TeamRepository from repositories/team_repository.py. -/
structure TeamRepo where
  data : List (String × Team)
  nextId : Nat
deriving DecidableEq, Repr

/-- TeamRepository.get_by_id. -/
def TeamRepo.getById (repo : TeamRepo) (teamId : String) : Option Team :=
  (repo.data.find? (fun kv => kv.fst = teamId)).map Prod.snd

/-- TeamRepository.save. -/
def TeamRepo.save (repo : TeamRepo) (t : Team) : Team × TeamRepo :=
  if t.id = "" then
    let nid := "teamrepository_" ++ natToString repo.nextId
    let t2 := { t with id := nid }
    (t2, { data := upsertEntry repo.data nid t2, nextId := repo.nextId + 1 })
  else
    (t, { repo with data := upsertEntry repo.data t.id t })

/-- TeamService._can_manage_team from services/team_service.py: a stored
admin, the team leader by id, or a member holding the LEADER role. -/
def TeamService.canManageTeam (urepo : UserRepo) (userId : String)
    (team : Team) : Bool :=
  match urepo.getById userId with
  | none => false
  | some u =>
    if u.isAdmin then true
    else if team.leaderId = some userId then true
    else if team.getMemberRole userId = some TeamRole.leader then true
    else false

/-- TeamService.remove_team_member from services/team_service.py:
resolve the team, check management permission, delegate to the entity
(whose CannotRemoveLeader failure propagates unchanged), and save only
when a member was actually removed. -/
def TeamService.removeTeamMember (trepo : TeamRepo) (urepo : UserRepo)
    (teamId userId removerId : String) (now : Int) :
    Except PyErr (Bool × TeamRepo) :=
  match trepo.getById teamId with
  | none =>
      Except.error (PyErr.valueError ("Team with ID " ++ teamId ++ " not found"))
  | some team =>
    if TaskMgmt.TeamService.canManageTeam urepo removerId team then
      match team.removeMember userId now with
      | Except.error e => Except.error e
      | Except.ok (success, team2) =>
        if success then Except.ok (success, (trepo.save team2).snd)
        else Except.ok (success, trepo)
    else
      Except.error
        (PyErr.permissionError "User does not have permission to manage this team")

end TaskMgmt

namespace TaskMgmt

/-- popFirstMember finds a member exactly when the membership scan
does. -/
theorem popFirstMember_isSome (uid : String) :
    ∀ ms : List TeamMember,
      (popFirstMember uid ms).isSome = ms.any (fun m => m.userId = uid) := by
  intro ms
  induction ms with
  | nil => rfl
  | cons m rest ih =>
    by_cases h : m.userId = uid
    · simp [popFirstMember, h]
    · simp [popFirstMember, h, ih]

/-- Team whose leader_id is set to u1 while u1 is not in the member
list (reachable through direct construction or from_dict; the service
create_team auto-enrolls the leader). -/
def unenrolledLeaderTeam : Team :=
  { id := "team_1", name := "Core", description := "", leaderId := some "u1"
    createdAt := 0, updatedAt := 0, members := [], projects := [] }

/-- C3 counterexample: on a team whose leader_id is u1 but whose member
list does not contain u1, remove_member(u1) does not fail with
CannotRemoveLeader; it returns False, because the leader check sits
inside the member-scan loop and the loop never finds a matching
member. -/
theorem C3_remove_leader_counterexample :
    unenrolledLeaderTeam.leaderId = some "u1" ∧
    unenrolledLeaderTeam.removeMember "u1" 0 =
      Except.ok (false, unenrolledLeaderTeam) := by
  refine ⟨rfl, by decide⟩

/-- C3 amended: when the leader is present in the member list (true of
every team created through the service, which auto-enrolls the leader),
remove_member on the leader id fails with CannotRemoveLeader, and the
failure propagates through remove_team_member for every authorized
remover including admins; when the target is not the leader, the call
returns whether a member with that id was found and removed; when the
target id (even a leader id) is absent from the member list the call
returns False without failing. -/
theorem C3_remove_member_leader (trepo : TeamRepo) (urepo : UserRepo)
    (teamId lid uid removerId : String) (t : Team) (now : Int) :
    (t.isMember lid = true → t.leaderId = some lid →
      t.removeMember lid now =
        Except.error (PyErr.valueError "Cannot remove team leader")) ∧
    (trepo.getById teamId = some t →
      TeamService.canManageTeam urepo removerId t = true →
      t.isMember lid = true → t.leaderId = some lid →
      TeamService.removeTeamMember trepo urepo teamId lid removerId now =
        Except.error (PyErr.valueError "Cannot remove team leader")) ∧
    (t.leaderId ≠ some uid →
      (t.isMember uid = true →
        ∃ ms, popFirstMember uid t.members = some ms ∧
          t.removeMember uid now =
            Except.ok (true, { t with members := ms, updatedAt := now })) ∧
      (t.isMember uid = false →
        t.removeMember uid now = Except.ok (false, t))) := by
  have hrm : ∀ l2 : String, t.isMember l2 = true → t.leaderId = some l2 →
      t.removeMember l2 now =
        Except.error (PyErr.valueError "Cannot remove team leader") := by
    intro l2 hm hl
    unfold Team.removeMember
    rw [if_pos hm, if_pos hl]
  refine ⟨hrm lid, ?_, ?_⟩
  · intro ht hcan hm hl
    unfold TeamService.removeTeamMember
    simp only [ht, hcan, if_true, hrm lid hm hl]
  · intro hne
    constructor
    · intro hm
      have hsome : (popFirstMember uid t.members).isSome = true := by
        rw [popFirstMember_isSome]
        exact hm
      cases hpop : popFirstMember uid t.members with
      | none => rw [hpop] at hsome; exact Bool.noConfusion hsome
      | some ms =>
        refine ⟨ms, rfl, ?_⟩
        unfold Team.removeMember
        rw [if_pos hm, if_neg hne, hpop]
    · intro hm
      unfold Team.removeMember
      rw [if_neg (by rw [hm]; exact fun h => Bool.noConfusion h)]

/-- Team with the leader u1 enrolled and a second member u2. -/
def coreTeam : Team :=
  { id := "team_2", name := "Platform", description := ""
    leaderId := some "u1", createdAt := 0, updatedAt := 0
    members :=
      [{ userId := "u1", role := TeamRole.leader, joinedAt := 0
         permissions := teamRolePermissions TeamRole.leader },
       { userId := "u2", role := TeamRole.member, joinedAt := 0
         permissions := teamRolePermissions TeamRole.member }]
    projects := [] }

/-- Team repository holding the core team. -/
def coreTeamRepo : TeamRepo := { data := [("team_2", coreTeam)], nextId := 2 }

/-- Witness for C3 amended at concrete inputs: removing the enrolled
leader fails at the entity and through the service invoked by the admin
alice, removing the ordinary member u2 succeeds, and removing an unknown
id reports False. -/
theorem C3_remove_member_leader_witness :
    coreTeam.removeMember "u1" 4 =
      Except.error (PyErr.valueError "Cannot remove team leader") ∧
    TeamService.removeTeamMember coreTeamRepo scenarioUserRepo "team_2"
        "u1" "u1" 4 =
      Except.error (PyErr.valueError "Cannot remove team leader") ∧
    (∃ ms, popFirstMember "u2" coreTeam.members = some ms ∧
      coreTeam.removeMember "u2" 4 =
        Except.ok (true, { coreTeam with members := ms, updatedAt := 4 })) ∧
    coreTeam.removeMember "zz" 4 = Except.ok (false, coreTeam) := by
  refine ⟨?_, ?_, ?_, ?_⟩
  · exact (C3_remove_member_leader coreTeamRepo scenarioUserRepo "team_2"
      "u1" "u2" "u1" coreTeam 4).1 (by decide) (by decide)
  · exact (C3_remove_member_leader coreTeamRepo scenarioUserRepo "team_2"
      "u1" "u2" "u1" coreTeam 4).2.1 (by decide) (by decide) (by decide)
      (by decide)
  · exact ((C3_remove_member_leader coreTeamRepo scenarioUserRepo "team_2"
      "u1" "u2" "u1" coreTeam 4).2.2 (by decide)).1 (by decide)
  · exact ((C3_remove_member_leader coreTeamRepo scenarioUserRepo "team_2"
      "u1" "zz" "u1" coreTeam 4).2.2 (by decide)).2 (by decide)

end TaskMgmt
